import Mathlib

/-!
Verification of `setup.py` from the TemperatureMap repository.

The script is modelled as a pure function of two oracles:
`envHas v` tells whether environment variable `v` is set, and
`fileExists p` tells whether a file named `p` exists in the working
directory.  The command-line argument vector is passed as well, since a
run of the script receives one, but the source never reads `sys.argv`,
so the model never consults it.  A run either aborts at the assertion
(modelled as `Except.error` carrying the assertion message) or reaches
the single `setup(...)` call, whose arguments are recorded in a
`SetupCall` together with the intermediate lists in a `ScriptRun`.
-/

namespace SetupPy

/-- The message of the assertion at `setup.py` line 6. -/
def assertMessage : String := "Please run this after CIAO has been setup"

/-- The literal list `scripts` from `setup.py` line 9. -/
def scripts : List String := ["image_tempmap", "make_mkwarf_map", "multi_spec"]

/-- Arguments of the `setup(...)` call at lines 16-23 of `setup.py`. -/
structure SetupCall where
  name : String
  version : String
  description : String
  author : String
  author_email : String
  url : String
  scripts : List String
  data_files : List (String × List String)
deriving DecidableEq

/-- The observable outcome of a run that reaches the packaging call:
the three constructed lists and the arguments handed to `setup`. -/
structure ScriptRun where
  scripts : List String
  params : List String
  docs : List String
  call : SetupCall
deriving DecidableEq

/-- The whole script, lines 6-23 of `setup.py`: assert that
`ASCDS_INSTALL` is in the environment, build `params` by appending
`.par` to each script name, build `docs` by keeping `x + ".xml"` for
each script `x` whose `.xml` file exists, then call `setup` with the
literal metadata and the two lists. -/
def runScript (envHas : String → Bool) (fileExists : String → Bool)
    (argv : List String) : Except String ScriptRun :=
  if envHas "ASCDS_INSTALL" then
    let params := scripts.map (fun x => x ++ ".par")
    let docs := (scripts.filter (fun x => fileExists (x ++ ".xml"))).map
      (fun x => x ++ ".xml")
    Except.ok
      { scripts := scripts
        params := params
        docs := docs
        call :=
          { name := "TemperatureMaps"
            version := "4.13.0"
            description := "Temperature maps scripts"
            author := "Kenny Glotfelty"
            author_email := "glotfeltyk@si.edu"
            url := "https://github.com/kglotfelty/TemperatureMaps/"
            scripts := scripts
            data_files := [("param", params), ("share/doc/xml", docs)] } }
  else
    Except.error assertMessage

/-- The `ScriptRun` produced by any run in which `ASCDS_INSTALL` is set:
it depends only on the filesystem oracle. -/
def okRun (fileExists : String → Bool) : ScriptRun :=
  { scripts := scripts
    params := scripts.map (fun x => x ++ ".par")
    docs := (scripts.filter (fun x => fileExists (x ++ ".xml"))).map
      (fun x => x ++ ".xml")
    call :=
      { name := "TemperatureMaps"
        version := "4.13.0"
        description := "Temperature maps scripts"
        author := "Kenny Glotfelty"
        author_email := "glotfeltyk@si.edu"
        url := "https://github.com/kglotfelty/TemperatureMaps/"
        scripts := scripts
        data_files := [("param", scripts.map (fun x => x ++ ".par")),
          ("share/doc/xml", (scripts.filter (fun x => fileExists (x ++ ".xml"))).map
            (fun x => x ++ ".xml"))] } }

theorem runScript_eq_ok (envHas fileExists : String → Bool) (argv : List String)
    (henv : envHas "ASCDS_INSTALL" = true) :
    runScript envHas fileExists argv = Except.ok (okRun fileExists) := by
  simp [runScript, okRun, henv]

/-- C1: if `ASCDS_INSTALL` is unset, the run terminates at once with the
assertion failure message "Please run this after CIAO has been setup";
no lists are built and no packaging call is reached (the result carries
no `ScriptRun`). -/
theorem assert_unset_fails (envHas fileExists : String → Bool) (argv : List String)
    (henv : envHas "ASCDS_INSTALL" = false) :
    runScript envHas fileExists argv = Except.error assertMessage := by
  simp [runScript, henv]

theorem assert_unset_fails_witness :
    runScript (fun _ => false) (fun _ => false) [] = Except.error assertMessage :=
  assert_unset_fails (fun _ => false) (fun _ => false) [] rfl

/-- C2: whenever `ASCDS_INSTALL` is set, the run succeeds and its
`params` list is exactly `["image_tempmap.par", "make_mkwarf_map.par",
"multi_spec.par"]`, for every filesystem oracle. -/
theorem params_exact (envHas fileExists : String → Bool) (argv : List String)
    (henv : envHas "ASCDS_INSTALL" = true) :
    ∃ st, runScript envHas fileExists argv = Except.ok st ∧
      st.params = ["image_tempmap.par", "make_mkwarf_map.par", "multi_spec.par"] :=
  ⟨okRun fileExists, runScript_eq_ok envHas fileExists argv henv, rfl⟩

theorem params_exact_witness :
    ∃ st, runScript (fun _ => true) (fun _ => false) [] = Except.ok st ∧
      st.params = ["image_tempmap.par", "make_mkwarf_map.par", "multi_spec.par"] :=
  params_exact (fun _ => true) (fun _ => false) [] rfl

/-- C3: whenever `ASCDS_INSTALL` is set, for each script name `s`, the
`docs` list of the resulting run contains `s ++ ".xml"` exactly when
that file exists in the working directory. -/
theorem docs_mem_iff (envHas fileExists : String → Bool) (argv : List String)
    (henv : envHas "ASCDS_INSTALL" = true) (s : String) (hs : s ∈ scripts) :
    ∃ st, runScript envHas fileExists argv = Except.ok st ∧
      ((s ++ ".xml") ∈ st.docs ↔ fileExists (s ++ ".xml") = true) := by
  refine ⟨okRun fileExists, runScript_eq_ok envHas fileExists argv henv, ?_⟩
  fin_cases hs <;>
    cases h1 : fileExists ("image_tempmap" ++ ".xml") <;>
    cases h2 : fileExists ("make_mkwarf_map" ++ ".xml") <;>
    cases h3 : fileExists ("multi_spec" ++ ".xml") <;>
    simp_all [okRun, scripts]

theorem docs_mem_iff_witness :
    ∃ st, runScript (fun _ => true) (fun _ => true) [] = Except.ok st ∧
      (("multi_spec" ++ ".xml") ∈ st.docs ↔ (fun _ : String => true) ("multi_spec" ++ ".xml") = true) :=
  docs_mem_iff (fun _ => true) (fun _ => true) [] rfl "multi_spec" (by decide)

/-- C4: every run that reaches the packaging call passes exactly the
fixed metadata record, independent of the environment and filesystem. -/
theorem metadata_fixed (envHas fileExists : String → Bool) (argv : List String)
    (henv : envHas "ASCDS_INSTALL" = true) :
    ∃ st, runScript envHas fileExists argv = Except.ok st ∧
      st.call.name = "TemperatureMaps" ∧
      st.call.version = "4.13.0" ∧
      st.call.description = "Temperature maps scripts" ∧
      st.call.author = "Kenny Glotfelty" ∧
      st.call.author_email = "glotfeltyk@si.edu" ∧
      st.call.url = "https://github.com/kglotfelty/TemperatureMaps/" :=
  ⟨okRun fileExists, runScript_eq_ok envHas fileExists argv henv,
    rfl, rfl, rfl, rfl, rfl, rfl⟩

theorem metadata_fixed_witness :
    ∃ st, runScript (fun _ => true) (fun _ => false) [] = Except.ok st ∧
      st.call.name = "TemperatureMaps" ∧
      st.call.version = "4.13.0" ∧
      st.call.description = "Temperature maps scripts" ∧
      st.call.author = "Kenny Glotfelty" ∧
      st.call.author_email = "glotfeltyk@si.edu" ∧
      st.call.url = "https://github.com/kglotfelty/TemperatureMaps/" :=
  metadata_fixed (fun _ => true) (fun _ => false) [] rfl

/-- C5: every run that reaches the packaging call passes as `scripts`
exactly the literal list `["image_tempmap", "make_mkwarf_map",
"multi_spec"]`, identical to the list defined earlier in the script. -/
theorem scripts_arg_exact (envHas fileExists : String → Bool) (argv : List String)
    (henv : envHas "ASCDS_INSTALL" = true) :
    ∃ st, runScript envHas fileExists argv = Except.ok st ∧
      st.call.scripts = ["image_tempmap", "make_mkwarf_map", "multi_spec"] ∧
      st.call.scripts = st.scripts :=
  ⟨okRun fileExists, runScript_eq_ok envHas fileExists argv henv, rfl, rfl⟩

theorem scripts_arg_exact_witness :
    ∃ st, runScript (fun _ => true) (fun _ => false) [] = Except.ok st ∧
      st.call.scripts = ["image_tempmap", "make_mkwarf_map", "multi_spec"] ∧
      st.call.scripts = st.scripts :=
  scripts_arg_exact (fun _ => true) (fun _ => false) [] rfl

/-- C6: the assertion is the only failure of the script itself: whenever
`ASCDS_INSTALL` is set, the script's own code runs to completion and
reaches the packaging call. -/
theorem no_other_failure (envHas fileExists : String → Bool) (argv : List String)
    (henv : envHas "ASCDS_INSTALL" = true) :
    ∃ st, runScript envHas fileExists argv = Except.ok st :=
  ⟨okRun fileExists, runScript_eq_ok envHas fileExists argv henv⟩

theorem no_other_failure_witness :
    ∃ st, runScript (fun _ => true) (fun _ => false) [] = Except.ok st :=
  no_other_failure (fun _ => true) (fun _ => false) [] rfl

/-- C7: the derived lists arise from `scripts` by string concatenation
only: `params` is the map appending `.par`, and `docs` is the
existence-filter of the map appending `.xml`. -/
theorem derived_lists (envHas fileExists : String → Bool) (argv : List String)
    (henv : envHas "ASCDS_INSTALL" = true) :
    ∃ st, runScript envHas fileExists argv = Except.ok st ∧
      st.params = st.scripts.map (fun x => x ++ ".par") ∧
      st.docs = (st.scripts.map (fun x => x ++ ".xml")).filter fileExists := by
  refine ⟨okRun fileExists, runScript_eq_ok envHas fileExists argv henv, rfl, ?_⟩
  simp [okRun, List.filter_map, Function.comp_def]

theorem derived_lists_witness :
    ∃ st, runScript (fun _ => true) (fun _ => true) [] = Except.ok st ∧
      st.params = st.scripts.map (fun x => x ++ ".par") ∧
      st.docs = (st.scripts.map (fun x => x ++ ".xml")).filter (fun _ => true) :=
  derived_lists (fun _ => true) (fun _ => true) [] rfl

/-- C8: the script reads no command-line arguments: two runs with the
same environment and filesystem but different argument vectors produce
the same outcome, lists and packaging call included. -/
theorem argv_independent (envHas fileExists : String → Bool)
    (argv1 argv2 : List String) :
    runScript envHas fileExists argv1 = runScript envHas fileExists argv2 := rfl

/-- C9: in every run that constructs it, `docs` is an order-preserving
sublist of `["image_tempmap.xml", "make_mkwarf_map.xml",
"multi_spec.xml"]`; hence its length is at most 3 and it has no
duplicates. -/
theorem docs_sublist (envHas fileExists : String → Bool) (argv : List String)
    (henv : envHas "ASCDS_INSTALL" = true) :
    ∃ st, runScript envHas fileExists argv = Except.ok st ∧
      st.docs.Sublist ["image_tempmap.xml", "make_mkwarf_map.xml", "multi_spec.xml"] ∧
      st.docs.length ≤ 3 ∧ st.docs.Nodup := by
  refine ⟨okRun fileExists, runScript_eq_ok envHas fileExists argv henv, ?_⟩
  have hsub : (okRun fileExists).docs.Sublist
      ["image_tempmap.xml", "make_mkwarf_map.xml", "multi_spec.xml"] := by
    have h := (List.filter_sublist
          (p := fun x => fileExists (x ++ ".xml")) scripts).map
        (fun x => x ++ ".xml")
    simpa [okRun, scripts] using h
  refine ⟨hsub, ?_, ?_⟩
  · simpa using hsub.length_le
  · exact (by decide :
      (["image_tempmap.xml", "make_mkwarf_map.xml", "multi_spec.xml"] :
        List String).Nodup).sublist hsub

theorem docs_sublist_witness :
    ∃ st, runScript (fun _ => true) (fun _ => true) [] = Except.ok st ∧
      st.docs.Sublist ["image_tempmap.xml", "make_mkwarf_map.xml", "multi_spec.xml"] ∧
      st.docs.length ≤ 3 ∧ st.docs.Nodup :=
  docs_sublist (fun _ => true) (fun _ => true) [] rfl

/-- C10: every run that reaches the packaging call passes as
`data_files` exactly the two-element list pairing the fixed destination
`"param"` with `params` and the fixed destination `"share/doc/xml"`
with `docs`. -/
theorem data_files_exact (envHas fileExists : String → Bool) (argv : List String)
    (henv : envHas "ASCDS_INSTALL" = true) :
    ∃ st, runScript envHas fileExists argv = Except.ok st ∧
      st.call.data_files = [("param", st.params), ("share/doc/xml", st.docs)] ∧
      st.call.data_files.map Prod.fst = ["param", "share/doc/xml"] :=
  ⟨okRun fileExists, runScript_eq_ok envHas fileExists argv henv, rfl, rfl⟩

theorem data_files_exact_witness :
    ∃ st, runScript (fun _ => true) (fun _ => false) [] = Except.ok st ∧
      st.call.data_files = [("param", st.params), ("share/doc/xml", st.docs)] ∧
      st.call.data_files.map Prod.fst = ["param", "share/doc/xml"] :=
  data_files_exact (fun _ => true) (fun _ => false) [] rfl

end SetupPy
